import Mathlib

/-!
Verification of the generate-validate-refine pipeline of the `builder`
repository (`src/llm/guardrails.py`, `src/llm/validator.py`,
`src/llm/code_generator.py`).

Modelling conventions:

* Source text is represented as `Str := List Char`; Python's substring
  test `needle in hay` is `strHas hay needle`, and `str.split('\n')`
  is `splitOnChar '\n'`.
* `ast.parse` is the external CPython parser.  It is modelled as an
  explicit parameter `P : Str -> ParseResult`; a `ParseResult` is either
  the list of AST nodes in `ast.walk` order (each node abstracted to the
  constructor shapes that `GuardrailsEngine._check_ast_violations`
  distinguishes), or a `SyntaxErr` carrying `e.msg`, `e.lineno` and the
  rendered `str(e)`.  Concrete theorems instantiate `P` with the actual
  CPython parse of the concrete text, transcribed by hand.
* The regular expressions used by the source are fixed pattern shapes
  (`NAME\s*=\s*["'][^"']+["']`, anchored secret heuristics, and literal
  patterns); they are implemented here as direct executable matchers
  with the same semantics.
* The sandboxed runtime tests of `CodeValidator._execute_runtime_tests`
  run external processes; their outcome is modelled as a
  `RuntimeOutcome` parameter: either the returned
  `{"passed": ..., "failures": [...]}` dictionary, or an exception
  reaching `validate_code`'s outer `except` clause.
* The LLM backend (`CodeGenerator._call_llm`) is modelled as a function
  `llm : Str -> Str` from the current prompt to the generated text, and
  the initial prompt built by `_build_generation_prompt` is taken as an
  input.
-/

abbrev Str := List Char

/-- Double-quote character. -/
def dquote : Char := Char.ofNat 34

/-- Single-quote character. -/
def squote : Char := Char.ofNat 39

/-- Python `str.split(sep)` for a single-character separator:
splitting keeps empty pieces and a trailing separator yields a trailing
empty piece. -/
def splitOnChar (sep : Char) : Str → List Str
  | [] => [[]]
  | c :: rest =>
    let r := splitOnChar sep rest
    if c = sep then [] :: r
    else
      match r with
      | [] => [[c]]
      | h :: t => (c :: h) :: t

/-- Python `needle in hay` (substring containment). -/
def strHas (hay needle : Str) : Bool :=
  needle.isPrefixOf hay ||
    match hay with
    | [] => false
    | _ :: t => strHas t needle

/-- Decimal rendering of a `Nat`, as Python `str(n)`. -/
def natToStr (n : Nat) : Str := (Nat.repr n).toList

/-- Rendering of Python `Optional[int]` inside an f-string:
`None` renders as the text `None`. -/
def optNatToStr : Option Nat → Str
  | none => "None".toList
  | some n => natToStr n

/-- The six ASCII characters matched by the regex class `\s`. -/
def isPySpace (c : Char) : Bool :=
  c = ' ' || c = '\t' || c = '\n' || c = '\x0d' || c = Char.ofNat 11 || c = Char.ofNat 12

/-- A quote character, i.e. the regex class `["']`. -/
def isQuote (c : Char) : Bool := c = dquote || c = squote

/-- Strip `pre` from the front of `s`; `ci` selects case-insensitive
comparison (the effect of `re.IGNORECASE` on a literal). Returns the
remaining suffix on success. -/
def stripPrefixCI (ci : Bool) : Str → Str → Option Str
  | [], s => some s
  | _ :: _, [] => none
  | p :: ps, c :: cs =>
    if (if ci then p.toLower = c.toLower else p = c) then stripPrefixCI ci ps cs else none

/-- Match the tail `\s*=\s*["'][^"']+["']` of the hardcoded-credential
regexes at the head of `s`, returning the suffix after the match.
Because `[^"']` excludes both quote characters, the closing quote is
forced to be the character right after the maximal run of non-quote
characters, so the match is deterministic. -/
def matchAssignTail (s : Str) : Option Str :=
  let s1 := s.dropWhile isPySpace
  match s1 with
  | '=' :: s2 =>
    let s3 := s2.dropWhile isPySpace
    match s3 with
    | q :: s4 =>
      if isQuote q then
        let body := s4.takeWhile (fun c => !(isQuote c))
        match s4.drop body.length with
        | q2 :: s6 => if body.length ≥ 1 && isQuote q2 then some s6 else none
        | [] => none
      else none
    | [] => none
  | _ => none

/-- Match `NAME\s*=\s*["'][^"']+["']` at the head of `s` (with `ci`
controlling case sensitivity of the literal `NAME`), returning the
suffix after the match. -/
def matchAssignAt (ci : Bool) (name : Str) (s : Str) : Option Str :=
  match stripPrefixCI ci name s with
  | none => none
  | some r => matchAssignTail r

/-- `re.search` of `NAME\s*=\s*["'][^"']+["']` with `re.IGNORECASE`
over one line: a match may start at any position. -/
def searchAssignCI (name : Str) : Str → Bool
  | [] => (matchAssignAt true name []).isSome
  | c :: rest => (matchAssignAt true name (c :: rest)).isSome || searchAssignCI name rest

/-- One step of `re.sub(NAME\s*=\s*["'][^"']+["'], repl, s)`
(case-sensitive, leftmost, non-overlapping), run with fuel.  Every step
consumes at least one character of `s`, so fuel `s.length` (as used by
`reSubAssignAll`) always suffices and the fuel-exhausted branch is
unreachable from the top-level entry point. -/
def reSubAssignGo (name repl : Str) : Nat → Str → Str
  | _, [] => []
  | 0, s => s
  | Nat.succ fuel, c :: rest =>
    match matchAssignAt false name (c :: rest) with
    | some r => repl ++ reSubAssignGo name repl fuel r
    | none => c :: reSubAssignGo name repl fuel rest

/-- `re.sub(NAME\s*=\s*["'][^"']+["'], repl, s)`. -/
def reSubAssignAll (name repl s : Str) : Str := reSubAssignGo name repl s.length s

/-- Character class `[A-Za-z0-9+/]` (base64-ish). -/
def isB64Char (c : Char) : Bool :=
  ('A' ≤ c && c ≤ 'Z') || ('a' ≤ c && c ≤ 'z') || ('0' ≤ c && c ≤ '9') || c = '+' || c = '/'

/-- Character class `[a-f0-9]`. -/
def isHexChar (c : Char) : Bool :=
  ('a' ≤ c && c ≤ 'f') || ('0' ≤ c && c ≤ '9')

/-- Character class `[a-z0-9]`. -/
def isLowerAlnum (c : Char) : Bool :=
  ('a' ≤ c && c ≤ 'z') || ('0' ≤ c && c ≤ '9')

/-- Character class `[A-Z0-9]`. -/
def isCapsAlnum (c : Char) : Bool :=
  ('A' ≤ c && c ≤ 'Z') || ('0' ≤ c && c ≤ '9')

/-- The regex anchor `$` without `re.MULTILINE`: matches at the end of
the text or just before one final newline. -/
def dollarAt (rest : Str) : Bool := rest = [] || rest = [ '\n' ]

/-- `re.match(r'^CLASS-RUN{n,}$', s)` for a character class `cls` that
excludes newline: the maximal class run must have length at least `n`
and be followed only by the `$` anchor. -/
def anchoredClassRun (cls : Char → Bool) (n : Nat) (s : Str) : Bool :=
  let run := s.takeWhile cls
  decide (run.length ≥ n) && dollarAt (s.drop run.length)

/-- `re.match(r'^[A-Za-z0-9+/]{20,}={0,2}$', s)`: after the class run,
up to two `=` padding characters may precede the anchor. -/
def b64LikeMatch (s : Str) : Bool :=
  let run := s.takeWhile isB64Char
  let rest := s.drop run.length
  decide (run.length ≥ 20) &&
    (rest = [] || rest = [ '\n' ] || rest = [ '=' ] || rest = [ '=', '\n' ] ||
     rest = [ '=', '=' ] || rest = [ '=', '=', '\n' ])

/-- `GuardrailsEngine._looks_like_secret`. -/
def looksLikeSecret (text : Str) : Bool :=
  if text.length < 10 then false
  else
    b64LikeMatch text ||
    anchoredClassRun isHexChar 32 text ||
    (match stripPrefixCI false ( "sk_".toList) text with
     | some r => anchoredClassRun isLowerAlnum 20 r
     | none => false) ||
    anchoredClassRun isCapsAlnum 20 text

/-- `GuardrailViolation` dataclass from `src/llm/guardrails.py`. -/
structure GuardrailViolation where
  rule : Str
  severity : Str
  message : Str
  line_number : Option Nat := none
  suggestion : Option Str := none
deriving DecidableEq

/-- A node yielded by `ast.walk`, abstracted to the shapes that
`GuardrailsEngine._check_ast_violations` distinguishes.  `imp` is an
`ast.Import` with its alias names, `impFrom` an `ast.ImportFrom` with
its (optional) module, `callName`/`callAttr` an `ast.Call` whose
callee is an `ast.Name`/`ast.Attribute`, `strLit` a string-literal
node (`ast.Str`), and `other` any other node kind. -/
inductive PyNode where
  | imp (names : List Str) (lineno : Nat)
  | impFrom (module : Option Str) (lineno : Nat)
  | callName (funcId : Str) (lineno : Nat)
  | callAttr (attr : Str) (lineno : Nat)
  | strLit (value : Str) (lineno : Nat)
  | other
deriving DecidableEq

/-- The components of a CPython `SyntaxError` used by the repository:
`e.msg`, `e.lineno`, and the rendered `str(e)`. -/
structure SyntaxErr where
  msg : Str
  lineno : Option Nat
  rendered : Str
deriving DecidableEq

/-- Result of `ast.parse`: the walked node list of the tree, or a
syntax error. -/
inductive ParseResult where
  | ok (nodes : List PyNode)
  | err (e : SyntaxErr)
deriving DecidableEq

/-- `GuardrailsEngine.forbidden_imports` (a Python set; only
membership is used). -/
def forbiddenImports : List Str :=
  [ "subprocess".toList, "os.system".toList, "eval".toList, "exec".toList,
    "compile".toList, "__import__".toList, "open".toList, "file".toList,
    "input".toList, "raw_input".toList ]

/-- `GuardrailsEngine.forbidden_functions`. -/
def forbiddenFunctions : List Str :=
  [ "eval".toList, "exec".toList, "compile".toList, "globals".toList,
    "locals".toList, "setattr".toList, "delattr".toList, "hasattr".toList,
    "__import__".toList ]

/-- `GuardrailsEngine.required_patterns`: each entry pairs the regex
source text (used in the violation message) with the literal text the
regex matches (each pattern is a literal up to escaping). -/
def requiredPatterns : List (Str × Str) :=
  [ ( "from mcp import types".toList, "from mcp import types".toList),
    ( "from mcp\\.server import Server".toList, "from mcp.server import Server".toList),
    ( "async def list_tools\\(\\)".toList, "async def list_tools()".toList),
    ( "async def call_tool\\(\\)".toList, "async def call_tool()".toList) ]

/-- `GuardrailsEngine.security_patterns`: each entry pairs the literal
variable name of the regex `NAME\s*=\s*["'][^"']+["']` with its
message. -/
def securityPatterns : List (Str × Str) :=
  [ ( "CLIENT_SECRET".toList, "Hardcoded secret detected".toList),
    ( "password".toList, "Hardcoded password detected".toList),
    ( "api_key".toList, "Hardcoded API key detected".toList),
    ( "token".toList, "Hardcoded token detected".toList) ]

/-- Violations contributed by one walked node in
`GuardrailsEngine._check_ast_violations`. -/
def nodeViolations : PyNode → List GuardrailViolation
  | .imp names lineno =>
    names.filterMap fun n =>
      if forbiddenImports.contains n then
        some { rule := "forbidden_import".toList, severity := "error".toList,
               message := "Forbidden import: ".toList ++ n,
               line_number := some lineno,
               suggestion := some ( "Remove import ".toList ++ n ++ " or use safer alternative".toList) }
      else none
  | .impFrom module lineno =>
    match module with
    | some m =>
      if forbiddenImports.contains m then
        [ { rule := "forbidden_import".toList, severity := "error".toList,
            message := "Forbidden import from: ".toList ++ m,
            line_number := some lineno } ]
      else []
    | none => []
  | .callName funcId lineno =>
    if forbiddenFunctions.contains funcId then
      [ { rule := "forbidden_function".toList, severity := "error".toList,
          message := "Forbidden function call: ".toList ++ funcId,
          line_number := some lineno } ]
    else []
  | .callAttr attr lineno =>
    if forbiddenFunctions.contains attr then
      [ { rule := "forbidden_function".toList, severity := "warning".toList,
          message := "Potentially unsafe function call: ".toList ++ attr,
          line_number := some lineno } ]
    else []
  | .strLit value lineno =>
    if looksLikeSecret value then
      [ { rule := "hardcoded_secret".toList, severity := "warning".toList,
          message := "Potential hardcoded secret in string literal".toList,
          line_number := some lineno,
          suggestion := some ( "Use environment variables or config files".toList) } ]
    else []
  | .other => []

/-- `GuardrailsEngine._check_ast_violations`: the loop over
`ast.walk(tree)`, concatenating each node's violations in walk
order. -/
def checkAstViolations : List PyNode → List GuardrailViolation
  | [] => []
  | n :: rest => nodeViolations n ++ checkAstViolations rest

/-- The inner loop body of `GuardrailsEngine._check_security_patterns`
for one (1-based) numbered line: one violation per matching security
pattern, in pattern order. -/
def securityLineViolations (i : Nat) (line : Str) : List GuardrailViolation :=
  securityPatterns.filterMap fun pm =>
    if searchAssignCI pm.1 line then
      some { rule := "security_pattern".toList, severity := "error".toList,
             message := pm.2, line_number := some i,
             suggestion := some ( "Use environment variables instead".toList) }
    else none

/-- The line loop of `GuardrailsEngine._check_security_patterns`,
numbering lines from `i`. -/
def securityViolationsFrom (i : Nat) : List Str → List GuardrailViolation
  | [] => []
  | line :: rest => securityLineViolations i line ++ securityViolationsFrom (i + 1) rest

/-- `GuardrailsEngine._check_security_patterns`. -/
def checkSecurityPatterns (code : Str) : List GuardrailViolation :=
  securityViolationsFrom 1 (splitOnChar '\n' code)

/-- `GuardrailsEngine._check_required_patterns`. -/
def checkRequiredPatterns (code : Str) : List GuardrailViolation :=
  requiredPatterns.filterMap fun p =>
    if strHas code p.2 then none
    else
      some { rule := "missing_required_pattern".toList, severity := "error".toList,
             message := "Missing required MCP pattern: ".toList ++ p.1,
             suggestion := some ( "Ensure all required MCP server components are implemented".toList) }

/-- The line-length loop of `GuardrailsEngine._check_code_quality`,
numbering lines from `i`. -/
def lineLengthViolationsFrom (i : Nat) : List Str → List GuardrailViolation
  | [] => []
  | line :: rest =>
    (if line.length > 120 then
       [ { rule := "line_length".toList, severity := "warning".toList,
           message := "Line exceeds 120 characters".toList, line_number := some i,
           suggestion := some ( "Break long lines for better readability".toList) } ]
     else []) ++ lineLengthViolationsFrom (i + 1) rest

/-- `GuardrailsEngine._check_code_quality`. -/
def checkCodeQuality (code : Str) : List GuardrailViolation :=
  lineLengthViolationsFrom 1 (splitOnChar '\n' code) ++
  (if strHas code ( "async def".toList) && !strHas code ( "try:".toList) then
     [ { rule := "error_handling".toList, severity := "warning".toList,
         message := "Async functions should include error handling".toList,
         suggestion := some ( "Add try/except blocks for robust error handling".toList) } ]
   else []) ++
  (if strHas code ( "CLIENT_SECRET".toList) && !strHas code ( "os.getenv".toList) then
     [ { rule := "credential_handling".toList, severity := "warning".toList,
         message := "OAuth credentials should be loaded from environment".toList,
         suggestion := some ( "Use os.getenv() to load sensitive credentials".toList) } ]
   else [])

/-- `GuardrailsEngine.check_violations`.  `P` is the external CPython
parser (`ast.parse`); a `SyntaxError` short-circuits with a single
syntax violation built from `str(e)` and `e.lineno`. -/
def check_violations (P : Str → ParseResult) (code : Str) : List GuardrailViolation :=
  match P code with
  | .err e =>
    [ { rule := "syntax".toList, severity := "error".toList,
        message := "Syntax error: ".toList ++ e.rendered,
        line_number := e.lineno } ]
  | .ok nodes =>
    checkAstViolations nodes ++
    checkSecurityPatterns code ++
    checkRequiredPatterns code ++
    checkCodeQuality code

/-- `GuardrailsEngine._fix_hardcoded_secrets`: three `re.sub`
replacements, then prepending `import os` when needed. -/
def fixHardcodedSecrets (code : Str) : Str :=
  let c1 := reSubAssignAll ( "CLIENT_SECRET".toList)
      ( "CLIENT_SECRET = os.getenv(\"OAUTH_CLIENT_SECRET\")".toList) code
  let c2 := reSubAssignAll ( "CLIENT_ID".toList)
      ( "CLIENT_ID = os.getenv(\"OAUTH_CLIENT_ID\")".toList) c1
  let c3 := reSubAssignAll ( "api_key".toList)
      ( "api_key = os.getenv(\"API_KEY\")".toList) c2
  if !strHas c3 ( "import os".toList) && strHas c3 ( "os.getenv".toList) then
    "import os\n".toList ++ c3
  else c3

/-- `GuardrailsEngine._fix_credential_handling`. -/
def fixCredentialHandling (code : Str) : Str :=
  if !strHas code ( "import os".toList) then "import os\n".toList ++ code else code

/-- One iteration of the loop in
`GuardrailsEngine._apply_automatic_fixes`: rewrite only on
`warning`-severity `hardcoded_secret` / `credential_handling`
entries. -/
def autoFixStep (acc : Str) (v : GuardrailViolation) : Str :=
  if v.severity = "warning".toList then
    if v.rule = "hardcoded_secret".toList then fixHardcodedSecrets acc
    else if v.rule = "credential_handling".toList then fixCredentialHandling acc
    else acc
  else acc

/-- `GuardrailsEngine._apply_automatic_fixes`: the fold of
`autoFixStep` over the violation list. -/
def applyAutomaticFixes (code : Str) (violations : List GuardrailViolation) : Str :=
  violations.foldl autoFixStep code

/-- `GuardrailException`, modelled as carrying the list of critical
violation messages that the Python renders into the exception text. -/
structure GuardrailException where
  criticalMessages : List Str
deriving DecidableEq

/-- `GuardrailsEngine.validate_and_sanitize`: raise on any
`error`-severity violation, otherwise apply the automatic fixes. -/
def validate_and_sanitize (P : Str → ParseResult) (code : Str) : Except GuardrailException Str :=
  let violations := check_violations P code
  let critical := violations.filter fun v => v.severity = "error".toList
  if critical.isEmpty then .ok (applyAutomaticFixes code violations)
  else .error { criticalMessages := critical.map (·.message) }

/-- Result dictionary of one pure validator stage: the `valid` flag and
the `errors` list. -/
structure StageResult where
  valid : Bool
  errors : List Str
deriving DecidableEq

/-- Result dictionary of `CodeValidator._validate_error_handling`: the
`valid` flag and the `warnings` list. -/
structure WarnStageResult where
  valid : Bool
  warnings : List Str
deriving DecidableEq

/-- Outcome of `CodeValidator._execute_runtime_tests` (which runs the
candidate in external processes): either the returned dictionary
(`passed` flag plus `failures`), or an exception that reaches the
outer `except Exception` of `validate_code` (rendered by `str(e)`). -/
inductive RuntimeOutcome where
  | ok (passed : Bool) (failures : List Str)
  | raises (msg : Str)
deriving DecidableEq

/-- The `validation_results` dictionary of
`CodeValidator.validate_code`. -/
structure ValidationResults where
  passed : Bool
  syntax_valid : Bool
  imports_valid : Bool
  mcp_compliance : Bool
  oauth_implementation : Bool
  error_handling : Bool
  test_execution : Bool
  failures : List Str
  warnings : List Str
  error_details : Str
deriving DecidableEq

/-- `required_imports` of `CodeValidator._validate_imports`. -/
def requiredImports : List Str :=
  [ "from mcp import types".toList,
    "from mcp.server import Server".toList,
    "from mcp.server.stdio import stdio_server".toList ]

/-- `problematic_patterns` of `CodeValidator._validate_imports`. -/
def problematicPatterns : List (Str × Str) :=
  [ ( "import subprocess".toList, "subprocess import detected - potential security risk".toList),
    ( "import os".toList, "Direct os import detected - ensure proper usage".toList),
    ( "from os import".toList, "Direct os function import - verify security".toList) ]

/-- `CodeValidator._validate_imports`: required imports are errors when
missing; problematic imports add `Warning:`-prefixed entries that do
not affect `valid`. -/
def validateImports (code : Str) : StageResult :=
  let errors :=
    (requiredImports.filterMap fun r =>
      if strHas code r then none
      else some ( "Missing required import: ".toList ++ r)) ++
    (problematicPatterns.filterMap fun pw =>
      if strHas code pw.1 then some ( "Warning: ".toList ++ pw.2) else none)
  { valid := (errors.filter fun e => !(( "Warning:".toList).isPrefixOf e)).length = 0,
    errors := errors }

/-- `required_components` of `CodeValidator._validate_mcp_compliance`:
(pattern, description) pairs. -/
def requiredComponents : List (Str × Str) :=
  [ ( "server = Server(".toList, "Server instance creation".toList),
    ( "@server.list_tools()".toList, "list_tools decorator".toList),
    ( "async def list_tools(".toList, "list_tools function".toList),
    ( "@server.call_tool()".toList, "call_tool decorator".toList),
    ( "async def call_tool(".toList, "call_tool function".toList),
    ( "types.Tool(".toList, "Tool definition".toList),
    ( "types.TextContent(".toList, "TextContent response".toList),
    ( "async def main(".toList, "main function".toList),
    ( "stdio_server()".toList, "stdio_server usage".toList) ]

/-- `CodeValidator._validate_mcp_compliance`. -/
def validateMcpCompliance (code : Str) : StageResult :=
  let errors :=
    (requiredComponents.filterMap fun pd =>
      if strHas code pd.1 then none
      else some ( "Missing ".toList ++ pd.2 ++ ": ".toList ++ pd.1)) ++
    (if strHas code ( "inputSchema".toList) then []
     else [ "Tools must have inputSchema defined".toList ]) ++
    (if strHas code ( "\"type\": \"object\"".toList) then []
     else [ "Tool schemas must specify type as object".toList ])
  { valid := errors.length = 0, errors := errors }

/-- `oauth_requirements` of `CodeValidator._validate_oauth_implementation`. -/
def oauthRequirements : List (Str × Str) :=
  [ ( "CLIENT_ID".toList, "OAuth Client ID definition".toList),
    ( "CLIENT_SECRET".toList, "OAuth Client Secret definition".toList),
    ( "REDIRECT_URI".toList, "OAuth Redirect URI definition".toList),
    ( "get_auth_url".toList, "OAuth URL generation method".toList),
    ( "access_token".toList, "Access token handling".toList) ]

/-- `CodeValidator._validate_oauth_implementation` (the `oauth_creds`
argument is received but never inspected by the Python body). -/
def validateOauthImplementation (code : Str) (oauthCreds : List (Str × Str)) : StageResult :=
  let errors :=
    (oauthRequirements.filterMap fun pd =>
      if strHas code pd.1 then none
      else some ( "Missing ".toList ++ pd.2 ++ ": ".toList ++ pd.1)) ++
    (if !strHas code ( "os.getenv".toList) &&
        (strHas code ( "CLIENT_SECRET".toList) || strHas code ( "CLIENT_ID".toList)) then
       [ "OAuth credentials should use environment variables".toList ]
     else []) ++
    (if strHas code ( "\"authenticate\"".toList) then []
     else [ "Must include authenticate tool".toList ])
  { valid := errors.length = 0, errors := errors }

/-- `CodeValidator._validate_error_handling`. -/
def validateErrorHandling (code : Str) : WarnStageResult :=
  let warnings :=
    (if !strHas code ( "try:".toList) || !strHas code ( "except".toList) then
       [ "No error handling detected - consider adding try/except blocks".toList ]
     else []) ++
    (if ((splitOnChar '\n' code).any fun l => strHas l ( "async def".toList)) &&
        !strHas code ( "try:".toList) then
       [ "Async functions should include error handling".toList ]
     else []) ++
    (if strHas code ( "httpx".toList) && !strHas code ( "raise_for_status".toList) then
       [ "HTTP requests should check for errors with raise_for_status()".toList ]
     else [])
  { valid := warnings.length = 0, warnings := warnings }

/-- The `error` text of `CodeValidator._validate_syntax` on a
`SyntaxError`: the f-string `Line (lineno): (msg)`. -/
def syntaxErrorDetail (e : SyntaxErr) : Str :=
  "Line ".toList ++ optNatToStr e.lineno ++ ": ".toList ++ e.msg

/-- `CodeValidator.validate_code`.  `P` is the external CPython parser;
`rt` the outcome of the sandboxed runtime tests for this code (only
consulted when syntax and MCP compliance hold, mirroring the guard in
the source); `platform` and `oauthCreds` are passed through as in the
source.  On a runtime exception the outer `except Exception` captures
the message into `failures` / `error_details`, leaving `passed` at its
initial `false`. -/
def validate_code (P : Str → ParseResult) (rt : RuntimeOutcome)
    (code platform : Str) (oauthCreds : List (Str × Str)) : ValidationResults :=
  match P code with
  | .err e =>
    { passed := false, syntax_valid := false, imports_valid := false,
      mcp_compliance := false, oauth_implementation := false,
      error_handling := false, test_execution := false,
      failures := [ "Syntax error: ".toList ++ syntaxErrorDetail e ],
      warnings := [], error_details := syntaxErrorDetail e }
  | .ok _ =>
    let ir := validateImports code
    let mr := validateMcpCompliance code
    let br := validateOauthImplementation code oauthCreds
    let er := validateErrorHandling code
    let baseFailures :=
      (if ir.valid then [] else ir.errors) ++
      (if mr.valid then [] else mr.errors) ++
      (if br.valid then [] else br.errors)
    let baseWarnings := if er.valid then [] else er.warnings
    if mr.valid then
      match rt with
      | .raises m =>
        { passed := false, syntax_valid := true, imports_valid := ir.valid,
          mcp_compliance := mr.valid, oauth_implementation := br.valid,
          error_handling := er.valid, test_execution := false,
          failures := baseFailures ++ [ "Validation exception: ".toList ++ m ],
          warnings := baseWarnings, error_details := m }
      | .ok tp tf =>
        { passed := true && ir.valid && mr.valid && br.valid && tp,
          syntax_valid := true, imports_valid := ir.valid,
          mcp_compliance := mr.valid, oauth_implementation := br.valid,
          error_handling := er.valid, test_execution := tp,
          failures := baseFailures ++ (if tp then [] else tf),
          warnings := baseWarnings, error_details := [] }
    else
      { passed := true && ir.valid && mr.valid && br.valid && false,
        syntax_valid := true, imports_valid := ir.valid,
        mcp_compliance := mr.valid, oauth_implementation := br.valid,
        error_handling := er.valid, test_execution := false,
        failures := baseFailures, warnings := baseWarnings, error_details := [] }

/-- One lowercase hexadecimal digit. -/
def hexDigit (d : Nat) : Char :=
  if d < 10 then Char.ofNat (48 + d) else Char.ofNat (87 + (d % 16))

/-- Four lowercase hexadecimal digits, as in a JSON `\uXXXX` escape. -/
def hex4 (n : Nat) : Str :=
  [ hexDigit (n / 4096 % 16), hexDigit (n / 256 % 16), hexDigit (n / 16 % 16), hexDigit (n % 16) ]

/-- `json.dumps` escaping of one character (default `ensure_ascii`):
everything outside printable ASCII is escaped, with the named escapes
for the usual control characters and surrogate pairs beyond the BMP. -/
def jsonEscapeChar (c : Char) : Str :=
  if c = dquote then [ '\\', dquote ]
  else if c = '\\' then "\\\\".toList
  else if c = '\n' then "\\n".toList
  else if c = '\t' then "\\t".toList
  else if c = '\x0d' then "\\r".toList
  else if c = Char.ofNat 8 then "\\b".toList
  else if c = Char.ofNat 12 then "\\f".toList
  else if 32 ≤ c.toNat && c.toNat ≤ 126 then [ c ]
  else if c.toNat < 65536 then "\\u".toList ++ hex4 c.toNat
  else
    "\\u".toList ++ hex4 (55296 + (c.toNat - 65536) / 1024) ++
    "\\u".toList ++ hex4 (56320 + (c.toNat - 65536) % 1024)

/-- `json.dumps` escaping of a string body. -/
def jsonEscape : Str → Str
  | [] => []
  | c :: rest => jsonEscapeChar c ++ jsonEscape rest

/-- Join a list of pieces with a separator. -/
def joinSep (sep : Str) : List Str → Str
  | [] => []
  | [ x ] => x
  | x :: y :: rest => x ++ sep ++ joinSep sep (y :: rest)

/-- One element line of `json.dumps(list_of_strings, indent=2)`. -/
def jsonItem (s : Str) : Str :=
  "  ".toList ++ [ dquote ] ++ jsonEscape s ++ [ dquote ]

/-- `json.dumps(list_of_strings, indent=2)`. -/
def jsonDumpsStrings (l : List Str) : Str :=
  match l with
  | [] => "[]".toList
  | _ => "[\n".toList ++ joinSep ( ",\n".toList) (l.map jsonItem) ++ "\n]".toList

/-- `CodeGenerator._enhance_prompt_with_feedback`: the feedback
f-string appended to the prompt.  (`test_results.get('error_details',
...)` always finds the key, so the textual default is dead code.) -/
def enhancePromptWithFeedback (prompt : Str) (testResults : ValidationResults) : Str :=
  prompt ++
  "\nPREVIOUS ATTEMPT FAILED WITH THESE ISSUES:\n".toList ++
  jsonDumpsStrings testResults.failures ++
  "\n\nSPECIFIC ERRORS TO FIX:\n".toList ++
  testResults.error_details ++
  "\n\nPlease fix these issues in the next generation:\n".toList

/-- The success dictionary returned by
`CodeGenerator.generate_mcp_server`. -/
structure GenSuccess where
  code : Str
  test_results : ValidationResults
  attempt : Nat
deriving DecidableEq

/-- The failure dictionary returned by
`CodeGenerator.generate_mcp_server` after the loop: it carries the
fixed error text and the last iteration's sanitized code and test
results, but no attempt count and no history of earlier attempts. -/
structure GenFailure where
  error : Str
  last_attempt : Str
  test_results : ValidationResults
deriving DecidableEq

/-- Result of `CodeGenerator.generate_mcp_server`: one of the two
dictionary shapes. -/
inductive GenResult where
  | success (s : GenSuccess)
  | failure (f : GenFailure)
deriving DecidableEq

/-- The `error` text of the post-loop failure dictionary. -/
def maxAttemptsError : Str := "Code generation failed after maximum attempts".toList

/-- All-initial `validation_results` (used only for the unreachable
zero-fuel base case of `genLoop`). -/
def initResults : ValidationResults :=
  { passed := false, syntax_valid := false, imports_valid := false,
    mcp_compliance := false, oauth_implementation := false,
    error_handling := false, test_execution := false,
    failures := [], warnings := [], error_details := [] }

/-- The attempt loop of `CodeGenerator.generate_mcp_server`
(`for attempt in range(max_attempts)` with the prompt threaded through
`_enhance_prompt_with_feedback`).  `fuel` is the number of remaining
iterations and `attempt` the 0-based index of the current one; the
loop is entered with `fuel = 3`, so the zero-fuel base case is
unreachable (Python with an empty range would instead hit a
`NameError` on `validated_code`).  An uncaught `GuardrailException`
from `validate_and_sanitize` propagates out as `.error`. -/
def genLoop (P : Str → ParseResult) (llm : Str → Str) (rt : Str → RuntimeOutcome)
    (platform : Str) (oauthCreds : List (Str × Str)) :
    Nat → Nat → Str → Except GuardrailException GenResult
  | 0, _, _ => .ok (.failure { error := maxAttemptsError, last_attempt := [], test_results := initResults })
  | Nat.succ fuel, attempt, prompt =>
    let generated := llm prompt
    match validate_and_sanitize P generated with
    | .error e => .error e
    | .ok validated =>
      let results := validate_code P (rt validated) validated platform oauthCreds
      if results.passed then
        .ok (.success { code := validated, test_results := results, attempt := attempt + 1 })
      else
        match fuel with
        | 0 => .ok (.failure { error := maxAttemptsError, last_attempt := validated, test_results := results })
        | Nat.succ fuel2 =>
          genLoop P llm rt platform oauthCreds (Nat.succ fuel2) (attempt + 1)
            (enhancePromptWithFeedback prompt results)

/-- `CodeGenerator.generate_mcp_server`.  The platform analysis,
template loading and prompt construction preceding the loop are
external I/O summarized by the initial `prompt`; `max_attempts` is the
hard-coded 3. -/
def generate_mcp_server (P : Str → ParseResult) (llm : Str → Str) (rt : Str → RuntimeOutcome)
    (platform : Str) (oauthCreds : List (Str × Str)) (prompt : Str) :
    Except GuardrailException GenResult :=
  genLoop P llm rt platform oauthCreds 3 0 prompt

/-- A backend output that CPython rejects: `ast.parse` on `x = = 1`
raises `SyntaxError` with `msg = invalid syntax`, `lineno = 1` and
`str(e) = invalid syntax (<unknown>, line 1)`. -/
def unparseableText : Str := "x = = 1".toList

/-- The CPython `SyntaxError` for `unparseableText`. -/
def unparseableErr : SyntaxErr :=
  { msg := "invalid syntax".toList, lineno := some 1,
    rendered := "invalid syntax (<unknown>, line 1)".toList }

/-- Parser for runs whose only parsed text is `unparseableText`. -/
def parseAlwaysErr : Str → ParseResult := fun _ => .err unparseableErr

/-- A backend that returns unparseable text on every call. -/
def llmUnparseable : Str → Str := fun _ => unparseableText

/-- A runtime-test collaborator that reports failure (never consulted
in the runs below). -/
def rtNever : Str → RuntimeOutcome := fun _ => .ok false []

/-- The `GuardrailException` raised for `unparseableText`: the one
critical violation is the syntax violation. -/
def syntaxCritical : GuardrailException :=
  { criticalMessages := [ "Syntax error: invalid syntax (<unknown>, line 1)".toList ] }

/-- A minimal parseable text. -/
def assignText : Str := "x = 1".toList

/-- `ast.walk` of `x = 1`: Module, Assign, Name, Constant, Store —
none of the shapes `_check_ast_violations` inspects. -/
def assignNodes : List PyNode := [ .other, .other, .other, .other, .other ]

/-- Parser for runs whose only parsed text is `assignText`. -/
def parseAssign : Str → ParseResult := fun _ => .ok assignNodes

/-- Parser faithful on both `unparseableText` and `assignText`. -/
def parseMixed : Str → ParseResult :=
  fun s => if s = unparseableText then .err unparseableErr else .ok assignNodes

/-- The hardcoded-secret line from the spec's testable property. -/
def secretLine : Str := "CLIENT_SECRET = \"sk_abcdef0123456789abcdef\"".toList

/-- `ast.walk` of `secretLine`: Module, Assign, Name, Constant (the
string literal, line 1), Store. -/
def secretLineNodes : List PyNode :=
  [ .other, .other, .other, .strLit ( "sk_abcdef0123456789abcdef".toList) 1, .other ]

/-- Parser for runs whose only parsed text is `secretLine`. -/
def parseSecretLine : Str → ParseResult := fun _ => .ok secretLineNodes

/-- The critical violation messages `check_violations` reports for
`secretLine`, in source order: the `security_pattern` error for the
hardcoded secret, then the four missing required MCP patterns. -/
def secretCritical : GuardrailException :=
  { criticalMessages :=
    [ "Hardcoded secret detected".toList,
      "Missing required MCP pattern: from mcp import types".toList,
      "Missing required MCP pattern: from mcp\\.server import Server".toList,
      "Missing required MCP pattern: async def list_tools\\(\\)".toList,
      "Missing required MCP pattern: async def call_tool\\(\\)".toList ] }

/-- A text with a denylisted import. -/
def importSubprocessText : Str := "import subprocess".toList

/-- `ast.walk` of `import subprocess`: Module, Import (alias name
`subprocess`, line 1), alias. -/
def importSubprocessNodes : List PyNode :=
  [ .other, .imp [ "subprocess".toList ] 1, .other ]

/-- Parser for runs whose only parsed text is `importSubprocessText`. -/
def parseImportSubprocess : Str → ParseResult := fun _ => .ok importSubprocessNodes

/-- A parseable text missing the `list_tools` entrypoint. -/
def importOnlyText : Str := "from mcp import types".toList

/-- `ast.walk` of `from mcp import types`: Module, ImportFrom (module
`mcp`, line 1), alias. -/
def importOnlyNodes : List PyNode :=
  [ .other, .impFrom (some ( "mcp".toList)) 1, .other ]

/-- Parser for runs whose only parsed text is `importOnlyText`. -/
def parseImportOnly : Str → ParseResult := fun _ => .ok importOnlyNodes

/-- A parseable text (one comment line) containing every marker that
`_validate_mcp_compliance` looks for. -/
def mcpMarkersText : Str :=
  ( "# server = Server( @server.list_tools() async def list_tools( @server.call_tool() async def call_tool( types.Tool( types.TextContent( async def main( stdio_server() inputSchema \"type\": \"object\"").toList

/-- `ast.walk` of a comment-only module: just the Module node. -/
def parseMarkers : Str → ParseResult := fun _ => .ok [ PyNode.other ]

/-- A text whose only guardrail violation is the (unfixed)
`error_handling` warning: all required MCP patterns present, nothing
forbidden, no credential material. -/
def cleanText : Str :=
  ( "from mcp import types\nfrom mcp.server import Server\nasync def list_tools():\n    pass\nasync def call_tool():\n    pass\n").toList

/-- `ast.walk` of `cleanText`: Module, ImportFrom (`mcp`, line 1),
ImportFrom (`mcp.server`, line 2), AsyncFunctionDef, AsyncFunctionDef,
alias, alias, arguments, Pass, arguments, Pass. -/
def cleanNodes : List PyNode :=
  [ .other, .impFrom (some ( "mcp".toList)) 1, .impFrom (some ( "mcp.server".toList)) 2,
    .other, .other, .other, .other, .other, .other, .other, .other ]

/-- Parser for runs whose only parsed text is `cleanText`. -/
def parseClean : Str → ParseResult := fun _ => .ok cleanNodes

/-- A node carrying an import whose exact name is in
`forbidden_imports` (the claims' notion of a denylisted import). -/
def denylistedImportNode : PyNode → Bool
  | .imp names _ => names.any fun n => forbiddenImports.contains n
  | .impFrom (some m) _ => forbiddenImports.contains m
  | _ => false

/-- The `_validate_mcp_compliance` failure entry for a missing
`list_tools` function. -/
def missingListToolsMsg : Str :=
  "Missing list_tools function: async def list_tools(".toList

theorem isEmpty_false_of_mem {α : Type} {a : α} {l : List α} (h : a ∈ l) :
    l.isEmpty = false := by
  cases l with
  | nil => cases h
  | cons b t => rfl

theorem mem_checkAstViolations {v : GuardrailViolation} {n : PyNode}
    {nodes : List PyNode} (hn : n ∈ nodes) (hv : v ∈ nodeViolations n) :
    v ∈ checkAstViolations nodes := by
  induction nodes with
  | nil => cases hn
  | cons a rest ih =>
    rcases List.mem_cons.mp hn with h | h
    · subst h
      exact List.mem_append_left _ hv
    · exact List.mem_append_right _ (ih h)

theorem nodeViolations_error_of_denylisted {n : PyNode}
    (h : denylistedImportNode n = true) :
    ∃ v ∈ nodeViolations n, v.severity = "error".toList := by
  cases n with
  | imp names lineno =>
    obtain ⟨nm, hnm, hc⟩ := List.any_eq_true.mp h
    refine ⟨{ rule := "forbidden_import".toList, severity := "error".toList,
              message := "Forbidden import: ".toList ++ nm,
              line_number := some lineno,
              suggestion := some ( "Remove import ".toList ++ nm ++ " or use safer alternative".toList) },
            List.mem_filterMap.mpr ⟨nm, hnm, ?_⟩, rfl⟩
    simp only [if_pos hc]
  | impFrom module lineno =>
    cases module with
    | none => cases h
    | some m =>
      have hc : forbiddenImports.contains m = true := h
      refine ⟨{ rule := "forbidden_import".toList, severity := "error".toList,
                message := "Forbidden import from: ".toList ++ m,
                line_number := some lineno }, ?_, rfl⟩
      simp only [nodeViolations, if_pos hc, List.mem_singleton]
  | callName funcId lineno => cases h
  | callAttr attr lineno => cases h
  | strLit value lineno => cases h
  | other => cases h

theorem securityViolationsFrom_mem {name msg : Str}
    (hp : (name, msg) ∈ securityPatterns) {line : Str}
    (hmatch : searchAssignCI name line = true) :
    ∀ (i : Nat) (lines : List Str), line ∈ lines →
      ∃ v ∈ securityViolationsFrom i lines,
        v.rule = "security_pattern".toList ∧ v.severity = "error".toList := by
  intro i lines
  induction lines generalizing i with
  | nil => intro h; cases h
  | cons a rest ih =>
    intro hline
    rcases List.mem_cons.mp hline with h | h
    · subst h
      refine ⟨{ rule := "security_pattern".toList, severity := "error".toList,
                message := msg, line_number := some i,
                suggestion := some ( "Use environment variables instead".toList) },
              List.mem_append_left _ (List.mem_filterMap.mpr ⟨(name, msg), hp, ?_⟩), rfl, rfl⟩
      simp [hmatch]
    · obtain ⟨v, hv, hprops⟩ := ih (i + 1) h
      exact ⟨v, List.mem_append_right _ hv, hprops⟩

theorem validate_and_sanitize_rejects {P : Str → ParseResult} {code : Str}
    {v : GuardrailViolation} (hv : v ∈ check_violations P code)
    (hsev : v.severity = "error".toList) :
    ∃ e, validate_and_sanitize P code = .error e := by
  have hmem : v ∈ (check_violations P code).filter
      (fun v => decide (v.severity = "error".toList)) :=
    List.mem_filter.mpr ⟨hv, by simp [hsev]⟩
  have hne := isEmpty_false_of_mem hmem
  refine ⟨{ criticalMessages := ((check_violations P code).filter
      (fun v => decide (v.severity = "error".toList))).map (·.message) }, ?_⟩
  unfold validate_and_sanitize
  simp only [hne]
  rfl

theorem applyAutomaticFixes_eq_self :
    ∀ (vs : List GuardrailViolation) (code : Str),
      (∀ v ∈ vs, v.severity = "warning".toList →
        ¬ v.rule = "hardcoded_secret".toList ∧ ¬ v.rule = "credential_handling".toList) →
      applyAutomaticFixes code vs = code := by
  intro vs
  induction vs with
  | nil => intro code _; rfl
  | cons v rest ih =>
    intro code h
    have hstep : autoFixStep code v = code := by
      unfold autoFixStep
      by_cases hsev : v.severity = "warning".toList
      · obtain ⟨h1, h2⟩ := h v (List.mem_cons_self v rest) hsev
        rw [if_pos hsev, if_neg h1, if_neg h2]
      · rw [if_neg hsev]
    have hcons : applyAutomaticFixes code (v :: rest) =
        applyAutomaticFixes (autoFixStep code v) rest := rfl
    rw [hcons, hstep]
    exact ih code fun w hw => h w (List.mem_cons_of_mem v hw)

theorem joinSep_has_mem (sep x : Str) :
    ∀ l : List Str, x ∈ l → x <:+: joinSep sep l := by
  intro l
  induction l with
  | nil => intro h; cases h
  | cons a rest ih =>
    intro hx
    cases rest with
    | nil =>
      rcases List.mem_cons.mp hx with h | h
      · subst h; exact List.infix_refl x
      · cases h
    | cons b t =>
      rcases List.mem_cons.mp hx with h | h
      · subst h
        exact ⟨[], sep ++ joinSep sep (b :: t), by simp [joinSep, List.append_assoc]⟩
      · exact (ih h).trans ⟨a ++ sep, [], by simp [joinSep, List.append_assoc]⟩

theorem jsonDumps_has_mem {x : Str} {l : List Str} (hx : x ∈ l)
    (hesc : jsonEscape x = x) : x <:+: jsonDumpsStrings l := by
  have h1 : jsonItem x ∈ l.map jsonItem := List.mem_map_of_mem _ hx
  have h2 : jsonItem x <:+: joinSep ( ",\n".toList) (l.map jsonItem) :=
    joinSep_has_mem _ _ _ h1
  have h3 : x <:+: jsonItem x := by
    refine ⟨ "  ".toList ++ [ dquote ], [ dquote ], ?_⟩
    simp [jsonItem, hesc, List.append_assoc]
  cases l with
  | nil => cases hx
  | cons a t =>
    have hd : jsonDumpsStrings (a :: t) =
        "[\n".toList ++ joinSep ( ",\n".toList) ((a :: t).map jsonItem) ++ "\n]".toList := rfl
    rw [hd]
    exact (h3.trans h2).trans ⟨ "[\n".toList, "\n]".toList, by simp [List.append_assoc]⟩

theorem mcp_valid_false_of_mem {code : Str} {msg : Str}
    (h : msg ∈ (validateMcpCompliance code).errors) :
    (validateMcpCompliance code).valid = false := by
  have hne : (validateMcpCompliance code).errors ≠ [] := List.ne_nil_of_mem h
  have hval : (validateMcpCompliance code).valid =
      decide ((validateMcpCompliance code).errors.length = 0) := rfl
  rw [hval]
  simp [List.length_eq_zero, hne]

/-- Claim C1 (code bug, evidence): at the failing input - a backend
returning unparseable text - the `GuardrailException` raised by
`validate_and_sanitize` propagates out of `generate_mcp_server` to its
caller, instead of being recorded as a failed attempt with a
transition back to generation.  (The repository's own
`test_pipeline_with_iterations` expects such a first attempt to be
retried.) -/
theorem guardrail_rejection_escapes_generate :
    generate_mcp_server parseAlwaysErr llmUnparseable rtNever
      ( "github".toList) [] ( "PROMPT".toList) = .error syntaxCritical := by
  rfl

/-- Claim C2 (code bug, evidence): with the hard-coded `max_attempts = 3`
and a backend that always returns unparseable text, the run never
terminates normally with a result dictionary - the uncaught
`GuardrailException` escapes on the first attempt - so the claimed
`success = false`, `attempts_used = 3`, 3-entry-history outcome is
impossible. -/
theorem unparseable_backend_run_never_returns (r : GenResult) :
    generate_mcp_server parseAlwaysErr llmUnparseable rtNever
      ( "github".toList) [] ( "PROMPT".toList) ≠ .ok r := by
  intro h
  have heq : generate_mcp_server parseAlwaysErr llmUnparseable rtNever
      ( "github".toList) [] ( "PROMPT".toList) = .error syntaxCritical := by rfl
  rw [heq] at h
  exact Except.noConfusion h

/-- Claim C3: for every parser, runtime outcome and input, the
validator's overall `passed` flag equals the conjunction of the
`syntax_valid`, `imports_valid` (required-only), `mcp_compliance`,
`oauth_implementation` and `test_execution` flags of the same report;
the `error_handling` stage and the `warnings` list never enter the
conjunction, so warnings cannot block acceptance. -/
theorem validator_passed_eq_mandatory_stage_conjunction
    (P : Str → ParseResult) (rt : RuntimeOutcome) (code platform : Str)
    (oauthCreds : List (Str × Str)) :
    (validate_code P rt code platform oauthCreds).passed =
      ((validate_code P rt code platform oauthCreds).syntax_valid &&
       (validate_code P rt code platform oauthCreds).imports_valid &&
       (validate_code P rt code platform oauthCreds).mcp_compliance &&
       (validate_code P rt code platform oauthCreds).oauth_implementation &&
       (validate_code P rt code platform oauthCreds).test_execution) := by
  unfold validate_code
  cases P code with
  | err e => rfl
  | ok nodes =>
    dsimp only
    split
    · cases rt with
      | raises m => simp
      | ok tp tf => rfl
    · simp

/-- Claim C6 (amended): for every input that fails to parse,
`validate_code` reports `syntax_valid = false`, the line detail in the
single (syntax) failure entry and in `error_details`, and every
remaining stage flag keeps its initialized value `false` - the same
value a run-and-failed stage reports - with no distinct `not_run`
marker. -/
theorem syntax_failure_report_shape (P : Str → ParseResult)
    (rt : RuntimeOutcome) (code platform : Str) (oauthCreds : List (Str × Str))
    (e : SyntaxErr) (hp : P code = .err e) :
    validate_code P rt code platform oauthCreds =
      { passed := false, syntax_valid := false, imports_valid := false,
        mcp_compliance := false, oauth_implementation := false,
        error_handling := false, test_execution := false,
        failures := [ "Syntax error: ".toList ++ syntaxErrorDetail e ],
        warnings := [], error_details := syntaxErrorDetail e } := by
  unfold validate_code
  rw [hp]

/-- Claim C6 witness: the amended statement evaluated at the concrete
unparseable input. -/
theorem syntax_failure_report_shape_witness :
    parseMixed unparseableText = .err unparseableErr ∧
    validate_code parseMixed (.ok false []) unparseableText ( "github".toList) [] =
      { passed := false, syntax_valid := false, imports_valid := false,
        mcp_compliance := false, oauth_implementation := false,
        error_handling := false, test_execution := false,
        failures := [ "Syntax error: Line 1: invalid syntax".toList ],
        warnings := [], error_details := "Line 1: invalid syntax".toList } := by
  refine ⟨by decide, ?_⟩
  have h := syntax_failure_report_shape parseMixed (.ok false []) unparseableText
    ( "github".toList) [] unparseableErr (by decide)
  rw [h]
  decide

/-- Claim C6 counterexample: the claim's `not_run` reporting does not
exist - for the unparseable input the skipped imports stage carries the
same `false` flag as a parseable input whose imports stage ran and
failed, so the two are not distinguishable in the stage results. -/
theorem skipped_stage_flag_matches_failed_stage_flag :
    (validate_code parseMixed (.ok false []) unparseableText ( "github".toList) []).syntax_valid = false ∧
    (validate_code parseMixed (.ok false []) unparseableText ( "github".toList) []).failures =
      [ "Syntax error: Line 1: invalid syntax".toList ] ∧
    (validate_code parseMixed (.ok false []) assignText ( "github".toList) []).syntax_valid = true ∧
    ( "Missing required import: from mcp import types".toList) ∈
      (validate_code parseMixed (.ok false []) assignText ( "github".toList) []).failures ∧
    (validate_code parseMixed (.ok false []) unparseableText ( "github".toList) []).imports_valid =
      (validate_code parseMixed (.ok false []) assignText ( "github".toList) []).imports_valid := by
  decide

/-- Claim C8: `check_violations` and `validate_and_sanitize` are
deterministic - two runs on identical input yield the identical
violation list (same rules, severities, messages, order) and the
identical sanitized output or rejection.  In this embedding both are
pure functions, reflecting that the Python bodies use no randomness
and no I/O beyond their return values. -/
theorem guardrails_deterministic (P : Str → ParseResult) (code code2 : Str)
    (h : code = code2) :
    check_violations P code = check_violations P code2 ∧
    validate_and_sanitize P code = validate_and_sanitize P code2 := by
  subst h
  exact ⟨rfl, rfl⟩

/-- Claim C8 witness: determinism at a concrete input. -/
theorem guardrails_deterministic_witness :
    assignText = assignText ∧
    (check_violations parseAssign assignText = check_violations parseAssign assignText ∧
     validate_and_sanitize parseAssign assignText = validate_and_sanitize parseAssign assignText) :=
  ⟨rfl, guardrails_deterministic parseAssign assignText assignText rfl⟩

/-- Claim C4 counterexample: at the concrete input consisting of the
line CLIENT_SECRET = "sk_abcdef0123456789abcdef", the claim's
successful sanitization does not happen - `validate_and_sanitize`
raises `GuardrailException` (the regex security check classifies the
line at `error` severity), so no rewritten output is returned. -/
theorem client_secret_line_sanitize_rejects :
    validate_and_sanitize parseSecretLine secretLine = .error secretCritical := by
  rfl

/-- Claim C4 (amended): for every parsed input containing the line
CLIENT_SECRET = "sk_abcdef0123456789abcdef", `check_violations`
reports an `error`-severity `security_pattern` violation for it, and
`validate_and_sanitize` rejects with `GuardrailException` instead of
returning an environment-lookup rewrite. -/
theorem client_secret_line_flagged_and_rejected
    (P : Str → ParseResult) (code : Str) (nodes : List PyNode)
    (hp : P code = .ok nodes)
    (hline : secretLine ∈ splitOnChar '\n' code) :
    (∃ v ∈ check_violations P code,
       v.rule = "security_pattern".toList ∧ v.severity = "error".toList) ∧
    ∃ e, validate_and_sanitize P code = .error e := by
  have hmatch : searchAssignCI ( "CLIENT_SECRET".toList) secretLine = true := by decide
  have hpat : (( "CLIENT_SECRET".toList, "Hardcoded secret detected".toList) : Str × Str) ∈
      securityPatterns := by decide
  obtain ⟨v, hv, hrule, hsev⟩ :=
    securityViolationsFrom_mem hpat hmatch 1 (splitOnChar '\n' code) hline
  have hvmem : v ∈ check_violations P code := by
    unfold check_violations
    rw [hp]
    simp only [List.mem_append]
    exact Or.inl (Or.inl (Or.inr hv))
  exact ⟨⟨v, hvmem, hrule, hsev⟩, validate_and_sanitize_rejects hvmem hsev⟩

/-- Claim C4 witness: the amended statement evaluated at the concrete
secret line. -/
theorem client_secret_line_flagged_and_rejected_witness :
    (parseSecretLine secretLine = .ok secretLineNodes ∧
     secretLine ∈ splitOnChar '\n' secretLine) ∧
    ((∃ v ∈ check_violations parseSecretLine secretLine,
        v.rule = "security_pattern".toList ∧ v.severity = "error".toList) ∧
     ∃ e, validate_and_sanitize parseSecretLine secretLine = .error e) :=
  ⟨⟨rfl, by decide⟩,
   client_secret_line_flagged_and_rejected parseSecretLine secretLine secretLineNodes rfl
     (by decide)⟩

/-- Claim C5: for every parsed source whose AST contains an import
whose exact name is in the forbidden-imports set, `check_violations`
returns at least one `error`-severity violation, and
`validate_and_sanitize` rejects with `GuardrailException` rather than
returning sanitized output. -/
theorem denylisted_import_yields_error_and_rejection
    (P : Str → ParseResult) (code : Str) (nodes : List PyNode)
    (hp : P code = .ok nodes)
    (hdeny : ∃ n ∈ nodes, denylistedImportNode n = true) :
    (∃ v ∈ check_violations P code, v.severity = "error".toList) ∧
    ∃ e, validate_and_sanitize P code = .error e := by
  obtain ⟨n, hn, hd⟩ := hdeny
  obtain ⟨v, hv, hsev⟩ := nodeViolations_error_of_denylisted hd
  have hvmem : v ∈ check_violations P code := by
    unfold check_violations
    rw [hp]
    simp only [List.mem_append]
    exact Or.inl (Or.inl (Or.inl (mem_checkAstViolations hn hv)))
  exact ⟨⟨v, hvmem, hsev⟩, validate_and_sanitize_rejects hvmem hsev⟩

/-- Claim C5 witness: the statement evaluated at `import subprocess`. -/
theorem denylisted_import_yields_error_and_rejection_witness :
    (parseImportSubprocess importSubprocessText = .ok importSubprocessNodes ∧
     ∃ n ∈ importSubprocessNodes, denylistedImportNode n = true) ∧
    ((∃ v ∈ check_violations parseImportSubprocess importSubprocessText,
        v.severity = "error".toList) ∧
     ∃ e, validate_and_sanitize parseImportSubprocess importSubprocessText = .error e) :=
  ⟨⟨rfl, by decide⟩,
   denylisted_import_yields_error_and_rejection parseImportSubprocess importSubprocessText
     importSubprocessNodes rfl (by decide)⟩

/-- Claim C9: `validate_code` is total by construction (it returns a
full `ValidationResults` record for every parser, runtime outcome and
input), and an exception thrown during the runtime tests is captured
by the outer handler into `error_details` and the `failures` list
(prefixed `Validation exception:`), leaving `passed` false instead of
propagating. -/
theorem validate_code_captures_runtime_exception
    (P : Str → ParseResult) (code platform : Str) (oauthCreds : List (Str × Str))
    (m : Str) (nodes : List PyNode)
    (hp : P code = .ok nodes)
    (hm : (validateMcpCompliance code).valid = true) :
    (validate_code P (.raises m) code platform oauthCreds).error_details = m ∧
    ( "Validation exception: ".toList ++ m) ∈
      (validate_code P (.raises m) code platform oauthCreds).failures ∧
    (validate_code P (.raises m) code platform oauthCreds).passed = false := by
  unfold validate_code
  rw [hp]
  dsimp only
  rw [if_pos hm]
  refine ⟨rfl, ?_, rfl⟩
  exact List.mem_append_right _ (List.mem_singleton.mpr rfl)

/-- Claim C9 witness: the capture behavior at a concrete parseable
input that satisfies the MCP compliance stage. -/
theorem validate_code_captures_runtime_exception_witness :
    (parseMarkers mcpMarkersText = .ok [ PyNode.other ] ∧
     (validateMcpCompliance mcpMarkersText).valid = true) ∧
    ((validate_code parseMarkers (.raises ( "boom".toList)) mcpMarkersText
        ( "github".toList) []).error_details = "boom".toList ∧
     ( "Validation exception: boom".toList) ∈
       (validate_code parseMarkers (.raises ( "boom".toList)) mcpMarkersText
         ( "github".toList) []).failures ∧
     (validate_code parseMarkers (.raises ( "boom".toList)) mcpMarkersText
        ( "github".toList) []).passed = false) :=
  ⟨⟨rfl, by decide⟩,
   validate_code_captures_runtime_exception parseMarkers mcpMarkersText
     ( "github".toList) [] ( "boom".toList) [ PyNode.other ] rfl (by decide)⟩

/-- Claim C10: `validate_and_sanitize` is the identity on already-clean
input - whenever `check_violations` reports no `error`-severity
violation and no `warning` with rule `hardcoded_secret` or
`credential_handling`, the input text is returned unchanged. -/
theorem sanitize_identity_on_clean_input (P : Str → ParseResult) (code : Str)
    (herr : ∀ v ∈ check_violations P code, ¬ v.severity = "error".toList)
    (hwarn : ∀ v ∈ check_violations P code, v.severity = "warning".toList →
      ¬ v.rule = "hardcoded_secret".toList ∧ ¬ v.rule = "credential_handling".toList) :
    validate_and_sanitize P code = .ok code := by
  have hfilter : (check_violations P code).filter
      (fun v => decide (v.severity = "error".toList)) = [] :=
    List.filter_eq_nil_iff.mpr fun v hv => by simpa using herr v hv
  unfold validate_and_sanitize
  dsimp only
  rw [hfilter]
  simp only [List.isEmpty_nil, if_true]
  rw [applyAutomaticFixes_eq_self (check_violations P code) code hwarn]

/-- Claim C10 witness: identity at a concrete clean input (its only
violation is the untouched `error_handling` warning). -/
theorem sanitize_identity_on_clean_input_witness :
    ((∀ v ∈ check_violations parseClean cleanText, ¬ v.severity = "error".toList) ∧
     (∀ v ∈ check_violations parseClean cleanText, v.severity = "warning".toList →
       ¬ v.rule = "hardcoded_secret".toList ∧ ¬ v.rule = "credential_handling".toList)) ∧
    validate_and_sanitize parseClean cleanText = .ok cleanText :=
  ⟨⟨by decide, by decide⟩,
   sanitize_identity_on_clean_input parseClean cleanText (by decide) (by decide)⟩

/-- Claim C7: for every parseable artifact missing the
capability-listing entrypoint marker `async def list_tools(`, the MCP
compliance stage produces the failure entry named exactly for that
marker, the entry is in the report's failures, and its text occurs
verbatim inside the feedback that `_enhance_prompt_with_feedback`
appends to the prompt for the next generation call. -/
theorem missing_list_tools_failure_feedback
    (P : Str → ParseResult) (rt : RuntimeOutcome) (code platform prompt : Str)
    (oauthCreds : List (Str × Str)) (nodes : List PyNode)
    (hp : P code = .ok nodes)
    (hmissing : strHas code ( "async def list_tools(".toList) = false) :
    missingListToolsMsg ∈ (validate_code P rt code platform oauthCreds).failures ∧
    missingListToolsMsg <:+:
      enhancePromptWithFeedback prompt (validate_code P rt code platform oauthCreds) := by
  have hf : missingListToolsMsg ∈ requiredComponents.filterMap (fun pd =>
      if strHas code pd.1 then none
      else some ( "Missing ".toList ++ pd.2 ++ ": ".toList ++ pd.1)) := by
    refine List.mem_filterMap.mpr
      ⟨( "async def list_tools(".toList, "list_tools function".toList), by decide, ?_⟩
    rw [if_neg (by simp only [hmissing]; exact Bool.false_ne_true)]
    rfl
  have hmemE : missingListToolsMsg ∈ (validateMcpCompliance code).errors := by
    unfold validateMcpCompliance
    dsimp only
    exact List.mem_append_left _ (List.mem_append_left _ hf)
  have hvalid := mcp_valid_false_of_mem hmemE
  have hnotvalid : ¬ ((validateMcpCompliance code).valid = true) := by simp [hvalid]
  have hfail : missingListToolsMsg ∈ (validate_code P rt code platform oauthCreds).failures := by
    unfold validate_code
    rw [hp]
    dsimp only
    rw [if_neg hnotvalid]
    simp only [List.mem_append]
    refine Or.inl (Or.inr ?_)
    rw [if_neg hnotvalid]
    exact hmemE
  have hesc : jsonEscape missingListToolsMsg = missingListToolsMsg := by decide
  refine ⟨hfail, (jsonDumps_has_mem hfail hesc).trans ?_⟩
  refine ⟨prompt ++ "\nPREVIOUS ATTEMPT FAILED WITH THESE ISSUES:\n".toList,
          "\n\nSPECIFIC ERRORS TO FIX:\n".toList ++
            (validate_code P rt code platform oauthCreds).error_details ++
            "\n\nPlease fix these issues in the next generation:\n".toList, ?_⟩
  simp [enhancePromptWithFeedback, List.append_assoc]

/-- Claim C7 witness: the statement evaluated at a concrete parseable
artifact without the `list_tools` entrypoint. -/
theorem missing_list_tools_failure_feedback_witness :
    (parseImportOnly importOnlyText = .ok importOnlyNodes ∧
     strHas importOnlyText ( "async def list_tools(".toList) = false) ∧
    (missingListToolsMsg ∈
       (validate_code parseImportOnly (.ok false []) importOnlyText
         ( "github".toList) []).failures ∧
     missingListToolsMsg <:+:
       enhancePromptWithFeedback ( "PROMPT".toList)
         (validate_code parseImportOnly (.ok false []) importOnlyText
           ( "github".toList) [])) :=
  ⟨⟨rfl, by decide⟩,
   missing_list_tools_failure_feedback parseImportOnly (.ok false []) importOnlyText
     ( "github".toList) ( "PROMPT".toList) [] importOnlyNodes rfl (by decide)⟩
